import Mathlib

/-!
Verification of the pi_garage_manager core: the alert-scheduling loop in
`PiGarageAlert.main` and the command router in `doorTriggerLoop`
(src/pi_garage_manager.py), shallowly embedded in Lean.

Door states and the home/away mode are Python strings compared with `==`/
`str.lower()`, so they are embedded as `String`.  Timestamps (`time.time()`)
and durations are embedded as `Int`; hours of day (`int(strftime("%H"))`)
as `Int`.
-/

/-- Model of Python `str.lower()` (ASCII payloads). -/
def lowerStr (s : String) : String :=
  ⟨s.data.map Char.toLower⟩

/-- Model of Python `str.startswith(pat)`. -/
def startsWithStr (s pat : String) : Bool :=
  pat.data.isPrefixOf s.data

/-- Left-to-right, non-overlapping replacement of every occurrence of `pat`
by `rep`, on character lists: the semantics of Python `str.replace`.  Each
step consumes at least one character, so a fuel of the list's length is
always enough; fuel keeps the recursion structural. -/
def replaceChars (pat rep : List Char) : Nat → List Char → List Char
  | _, [] => []
  | 0, l => l
  | fuel + 1, c :: cs =>
    if pat.isPrefixOf (c :: cs) then
      rep ++ replaceChars pat rep fuel (cs.drop (pat.length - 1))
    else
      c :: replaceChars pat rep fuel cs

/-- Model of Python `str.replace(pat, rep)` (replaces ALL occurrences). -/
def pyReplace (s pat rep : String) : String :=
  ⟨replaceChars pat.data rep.data s.data.length s.data⟩

/-!
## Command router (`doorTriggerLoop`, src/pi_garage_manager.py lines 260-316)

Per connection the loop receives `received_raw`, lowercases it into
`received`, computes a `response` (default `'unknown command'`) and a
`trigger` flag (default `False`), possibly mutating `cfg.HOMEAWAY` or
`cfg.FIREBASE_ID`; if `trigger` is set it pulses GPIO pin 26 for 2 seconds
before accepting the next connection.
-/

/-- Mutable configuration touched by the router: `cfg.HOMEAWAY` and
`cfg.FIREBASE_ID`. -/
structure RouterCtx where
  homeaway : String
  firebase_id : String
deriving DecidableEq, Repr

/-- Outcome of handling one connection: the response sent back, whether the
actuator relay is pulsed afterwards, and the updated configuration. -/
structure RouterResult where
  response : String
  trigger : Bool
  ctx : RouterCtx
deriving DecidableEq, Repr

/-- One iteration of `doorTriggerLoop` (lines 264-313): dispatch on the
lower-cased request.  `state` is the door state the loop reads when handling
`trigger`/`open`/`close`. -/
def route (ctx : RouterCtx) (state : String) (received_raw : String) : RouterResult :=
  let received := lowerStr received_raw
  if received = "trigger" then
    { response := if state = "open" then "closing" else "opening",
      trigger := true, ctx := ctx }
  else if received = "open" ∨ received = "up" then
    if state = "open" then
      { response := "already open", trigger := false, ctx := ctx }
    else
      { response := "opening", trigger := true, ctx := ctx }
  else if received = "close" ∨ received = "down" then
    if state = "open" then
      { response := "closing", trigger := true, ctx := ctx }
    else
      { response := "already closed", trigger := false, ctx := ctx }
  else if received = "home" ∨ received = "set to home" then
    { response := "set to home", trigger := false,
      ctx := { ctx with homeaway := "home" } }
  else if received = "away" ∨ received = "set to away" then
    { response := "set to away", trigger := false,
      ctx := { ctx with homeaway := "away" } }
  else if received = "state" ∨ received = "status" then
    { response := state ++ " and " ++ ctx.homeaway, trigger := false, ctx := ctx }
  else if startsWithStr received "firebase:" then
    { response := "ok", trigger := false,
      ctx := { ctx with firebase_id := pyReplace received_raw "firebase:" "" } }
  else
    { response := "unknown command", trigger := false, ctx := ctx }

/-- One entry of `cfg.ALERTS`: keys `'start'`, `'end'`, `'time'`,
`'state'`, `'recipients'`. -/
structure AlertRule where
  start : Int
  endH : Int
  time : Int
  state : String
  recipients : List String
deriving DecidableEq, Repr

/-- The per-rule firing test of lines 405-420: the away-mode override,
then the same-day window (`start < end`), then the midnight-wrapping
window (`start > end`).  A rule with `start == end` matches neither
`elif` branch. -/
def sendAlertDecision (homeaway state : String) (time_in_state time_of_day : Int)
    (alert : AlertRule) : Bool :=
  if homeaway = "away" ∧ state = "open" then
    true
  else if alert.start < alert.endH then
    decide (time_of_day ≥ alert.start ∧ time_of_day ≤ alert.endH ∧
      time_in_state > alert.time ∧ state = alert.state)
  else if alert.start > alert.endH then
    decide ((time_of_day ≥ alert.start ∨ time_of_day ≤ alert.endH) ∧
      time_in_state > alert.time ∧ state = alert.state)
  else
    false

/-- The `for alert in cfg.ALERTS` loop of lines 401-424: each rule is
examined only while `alert_state == 0`; a firing rule is emitted and
increments `alert_state`.  Returns the final `alert_state` and the rules
that fired this tick, in order. -/
def processAlerts (homeaway state : String) (time_in_state time_of_day : Int) :
    Nat → List AlertRule → Nat × List AlertRule
  | alert_state, [] => (alert_state, [])
  | alert_state, alert :: rest =>
    if alert_state = 0 then
      if sendAlertDecision homeaway state time_in_state time_of_day alert then
        let (a2, fired) :=
          processAlerts homeaway state time_in_state time_of_day (alert_state + 1) rest
        (a2, alert :: fired)
      else
        processAlerts homeaway state time_in_state time_of_day alert_state rest
    else
      processAlerts homeaway state time_in_state time_of_day alert_state rest

/-- The loop state of `PiGarageAlert.main`: `door_state`,
`time_of_last_state_change`, and the shared `alert_state` counter. -/
structure TrackerState where
  door_state : String
  time_of_last_state_change : Int
  alert_state : Nat
deriving DecidableEq, Repr

/-- Lines 386-398: sample the sensor, compute `time_in_state`, and on a
change of state record the new state, restart the clock and reset
`alert_state`.  Returns the updated state and the tick's
`time_in_state`. -/
def sample (s : TrackerState) (sampled : String) (now : Int) : TrackerState × Int :=
  let time_in_state := now - s.time_of_last_state_change
  if s.door_state ≠ sampled then
    ({ door_state := sampled, time_of_last_state_change := now, alert_state := 0 }, 0)
  else
    (s, time_in_state)

/-- The environment one iteration of the poll loop reads: the sampled door
state, `time.time()`, the current hour of day, and `cfg.HOMEAWAY` (which
the listener thread may change between ticks). -/
structure Tick where
  sampled : String
  now : Int
  hour : Int
  homeaway : String
deriving DecidableEq, Repr

/-- One full iteration of the `while True` poll loop (lines 385-424):
sample, then evaluate the alert rules.  Returns the new loop state and
the rules that fired. -/
def tickStep (alerts : List AlertRule) (s : TrackerState) (t : Tick) :
    TrackerState × List AlertRule :=
  let (s1, time_in_state) := sample s t.sampled t.now
  let (a2, fired) :=
    processAlerts t.homeaway t.sampled time_in_state t.hour s1.alert_state alerts
  ({ s1 with alert_state := a2 }, fired)

/-- Repeated poll-loop iterations; collects every fired rule in order. -/
def runTicks (alerts : List AlertRule) : TrackerState → List Tick → TrackerState × List AlertRule
  | s, [] => (s, [])
  | s, t :: ts =>
    let (s1, fired) := tickStep alerts s t
    let (s2, rest) := runTicks alerts s1 ts
    (s2, fired ++ rest)

/-- Repeated door sampling without the alert pass (the DoorStateTracker
view of the loop). -/
def runSamples : TrackerState → List (String × Int) → TrackerState
  | s, [] => s
  | s, (st, now) :: rest => runSamples (sample s st now).1 rest

/-!
## Theorems: command router
-/

/-- C10: a payload whose lower-cased form is none of the vocabulary verbs
and does not start with `firebase:` yields the response `unknown command`,
no actuation, and an unchanged configuration (mode and firebase id). -/
theorem router_unknown_command (ctx : RouterCtx) (state raw : String)
    (h1 : lowerStr raw ≠ "trigger") (h2 : lowerStr raw ≠ "open") (h3 : lowerStr raw ≠ "up")
    (h4 : lowerStr raw ≠ "close") (h5 : lowerStr raw ≠ "down")
    (h6 : lowerStr raw ≠ "home") (h7 : lowerStr raw ≠ "set to home")
    (h8 : lowerStr raw ≠ "away") (h9 : lowerStr raw ≠ "set to away")
    (h10 : lowerStr raw ≠ "state") (h11 : lowerStr raw ≠ "status")
    (h12 : startsWithStr (lowerStr raw) "firebase:" = false) :
    route ctx state raw = ⟨"unknown command", false, ctx⟩ := by
  simp [route, h1, h2, h3, h4, h5, h6, h7, h8, h9, h10, h11, h12]

/-- Witness for C10: `" trigger"` (leading space) differs from every verb
only by whitespace and is answered `unknown command` with no side effect. -/
theorem router_unknown_command_witness :
    route ⟨"home", "someid"⟩ "open" " trigger" =
      ⟨"unknown command", false, ⟨"home", "someid"⟩⟩ :=
  router_unknown_command ⟨"home", "someid"⟩ "open" " trigger"
    (by decide) (by decide) (by decide) (by decide) (by decide) (by decide)
    (by decide) (by decide) (by decide) (by decide) (by decide) (by decide)

/-- Helper: lowering any payload that starts (lower-cased) with
`firebase:` can equal none of the vocabulary verbs, so the router takes the
`firebase:` branch. -/
theorem route_firebase_branch (ctx : RouterCtx) (state raw : String)
    (h : startsWithStr (lowerStr raw) "firebase:" = true) :
    route ctx state raw =
      ⟨"ok", false, ⟨ctx.homeaway, pyReplace raw "firebase:" ""⟩⟩ := by
  have h1 : lowerStr raw ≠ "trigger" := fun e => by rw [e] at h; exact absurd h (by decide)
  have h2 : lowerStr raw ≠ "open" := fun e => by rw [e] at h; exact absurd h (by decide)
  have h3 : lowerStr raw ≠ "up" := fun e => by rw [e] at h; exact absurd h (by decide)
  have h4 : lowerStr raw ≠ "close" := fun e => by rw [e] at h; exact absurd h (by decide)
  have h5 : lowerStr raw ≠ "down" := fun e => by rw [e] at h; exact absurd h (by decide)
  have h6 : lowerStr raw ≠ "home" := fun e => by rw [e] at h; exact absurd h (by decide)
  have h7 : lowerStr raw ≠ "set to home" := fun e => by rw [e] at h; exact absurd h (by decide)
  have h8 : lowerStr raw ≠ "away" := fun e => by rw [e] at h; exact absurd h (by decide)
  have h9 : lowerStr raw ≠ "set to away" := fun e => by rw [e] at h; exact absurd h (by decide)
  have h10 : lowerStr raw ≠ "state" := fun e => by rw [e] at h; exact absurd h (by decide)
  have h11 : lowerStr raw ≠ "status" := fun e => by rw [e] at h; exact absurd h (by decide)
  simp [route, h1, h2, h3, h4, h5, h6, h7, h8, h9, h10, h11, h]

/-- C9 counterexample: `"FIREBASE:ABC"` lower-cases to a `firebase:`-prefixed
command and is answered `ok`, but the stored id is NOT the case-preserved
payload after the prefix (`"ABC"`): `str.replace('firebase:','')` finds no
lower-case occurrence in the raw payload and leaves it whole. -/
theorem router_firebase_case_counterexample :
    startsWithStr (lowerStr "FIREBASE:ABC") "firebase:" = true ∧
    (route ⟨"home", "old"⟩ "closed" "FIREBASE:ABC").response = "ok" ∧
    (route ⟨"home", "old"⟩ "closed" "FIREBASE:ABC").ctx.firebase_id ≠ "ABC" ∧
    (route ⟨"home", "old"⟩ "closed" "FIREBASE:ABC").ctx.firebase_id = "FIREBASE:ABC" := by
  decide

/-- C9 (amended): a payload whose lower-cased form begins with `firebase:`
matches case-insensitively and is answered `ok`, and the notification
target id becomes the RAW payload with every occurrence of the exact
lower-case substring `firebase:` removed — which equals the case-preserved
suffix only when the prefix itself is lower-case (and the suffix contains
no further `firebase:`). -/
theorem router_firebase_replaces_raw (ctx : RouterCtx) (state raw : String)
    (h : startsWithStr (lowerStr raw) "firebase:" = true) :
    (route ctx state raw).response = "ok" ∧
    (route ctx state raw).trigger = false ∧
    (route ctx state raw).ctx.homeaway = ctx.homeaway ∧
    (route ctx state raw).ctx.firebase_id = pyReplace raw "firebase:" "" := by
  rw [route_firebase_branch ctx state raw h]
  exact ⟨rfl, rfl, rfl, rfl⟩

/-- Witness for C9 (amended): a lower-case-prefixed payload keeps the
suffix's case. -/
theorem router_firebase_replaces_raw_witness :
    (route ⟨"home", "old"⟩ "closed" "firebase:NewToken7").ctx.firebase_id =
      pyReplace "firebase:NewToken7" "firebase:" "" ∧
    pyReplace "firebase:NewToken7" "firebase:" "" = "NewToken7" :=
  ⟨(router_firebase_replaces_raw ⟨"home", "old"⟩ "closed" "firebase:NewToken7"
      (by decide)).2.2.2,
   by decide⟩

/-- Helper: once `alert_state` is nonzero, the rule loop fires nothing and
leaves the counter unchanged. -/
theorem processAlerts_ne_zero (homeaway state : String) (tis hr : Int) (a : Nat)
    (l : List AlertRule) (h : a ≠ 0) :
    processAlerts homeaway state tis hr a l = (a, []) := by
  induction l with
  | nil => rfl
  | cons r rest ih => simp [processAlerts, h, ih]

/-- Helper: starting from `alert_state = 0`, the rule loop fires at most one
rule, and the resulting counter equals the number of fired rules. -/
theorem processAlerts_zero (homeaway state : String) (tis hr : Int) (l : List AlertRule) :
    (processAlerts homeaway state tis hr 0 l).1 =
      ((processAlerts homeaway state tis hr 0 l).2).length ∧
    ((processAlerts homeaway state tis hr 0 l).2).length ≤ 1 := by
  induction l with
  | nil => simp [processAlerts]
  | cons r rest ih =>
    by_cases hd : sendAlertDecision homeaway state tis hr r
    · simp [processAlerts, hd, processAlerts_ne_zero homeaway state tis hr 1 rest one_ne_zero]
    · simpa [processAlerts, hd] using ih

/-- Helper: sampling the unchanged door state leaves the tracker alone and
reports the elapsed time. -/
theorem sample_no_transition (s : TrackerState) (st : String) (now : Int)
    (h : st = s.door_state) :
    sample s st now = (s, now - s.time_of_last_state_change) := by
  simp [sample, h]

/-- Helper: sampling a changed door state restarts the episode. -/
theorem sample_transition (s : TrackerState) (st : String) (now : Int)
    (h : s.door_state ≠ st) :
    sample s st now = (⟨st, now, 0⟩, 0) := by
  simp [sample, h]

/-- Helper: the new door state after any sample is the sampled value. -/
theorem sample_door (s : TrackerState) (st : String) (now : Int) :
    (sample s st now).1.door_state = st := by
  by_cases h : s.door_state = st
  · rw [sample_no_transition s st now h.symm]
    exact h
  · rw [sample_transition s st now h]

/-- Helper: a tick without a door transition and with a fired episode does
nothing at all. -/
theorem tickStep_dead (alerts : List AlertRule) (s : TrackerState) (t : Tick)
    (h1 : s.alert_state ≠ 0) (h2 : t.sampled = s.door_state) :
    tickStep alerts s t = (s, []) := by
  simp [tickStep, sample_no_transition s t.sampled t.now h2,
    processAlerts_ne_zero t.homeaway t.sampled (t.now - s.time_of_last_state_change) t.hour
      s.alert_state alerts h1]

/-- Helper: a tick without a door transition evaluates the rules against the
carried-over counter and elapsed time. -/
theorem tickStep_no_transition (alerts : List AlertRule) (s : TrackerState) (t : Tick)
    (h : t.sampled = s.door_state) :
    tickStep alerts s t =
      ({ s with alert_state :=
          (processAlerts t.homeaway t.sampled (t.now - s.time_of_last_state_change) t.hour
            s.alert_state alerts).1 },
       (processAlerts t.homeaway t.sampled (t.now - s.time_of_last_state_change) t.hour
         s.alert_state alerts).2) := by
  simp [tickStep, sample_no_transition s t.sampled t.now h]

/-- Helper: a tick with a door transition resets the episode and evaluates
the rules against `alert_state = 0` and `time_in_state = 0`. -/
theorem tickStep_transition (alerts : List AlertRule) (s : TrackerState) (t : Tick)
    (h : s.door_state ≠ t.sampled) :
    tickStep alerts s t =
      ({ door_state := t.sampled, time_of_last_state_change := t.now,
         alert_state := (processAlerts t.homeaway t.sampled 0 t.hour 0 alerts).1 },
       (processAlerts t.homeaway t.sampled 0 t.hour 0 alerts).2) := by
  simp [tickStep, sample_transition s t.sampled t.now h]

/-- Helper: with a fired episode and no further transition, any run of
ticks fires nothing and leaves the state unchanged. -/
theorem runTicks_dead (alerts : List AlertRule) (ts : List Tick) (s : TrackerState)
    (h1 : s.alert_state ≠ 0) (h2 : ∀ t ∈ ts, t.sampled = s.door_state) :
    runTicks alerts s ts = (s, []) := by
  induction ts with
  | nil => rfl
  | cons t rest ih =>
    have ht : t.sampled = s.door_state := h2 t (List.mem_cons_self t rest)
    have ih2 := ih (fun t' ht' => h2 t' (List.mem_cons_of_mem t ht'))
    simp [runTicks, tickStep_dead alerts s t h1 ht, ih2]

/-- Helper: within one episode (no transitions), starting armed, at most one
rule ever fires across any run of ticks. -/
theorem runTicks_live (alerts : List AlertRule) (ts : List Tick) (s : TrackerState)
    (h1 : s.alert_state = 0) (h2 : ∀ t ∈ ts, t.sampled = s.door_state) :
    ((runTicks alerts s ts).2).length ≤ 1 := by
  induction ts generalizing s with
  | nil => simp [runTicks]
  | cons t rest ih =>
    have ht : t.sampled = s.door_state := h2 t (List.mem_cons_self t rest)
    have hstep := tickStep_no_transition alerts s t ht
    rw [h1] at hstep
    have hz := processAlerts_zero t.homeaway t.sampled (t.now - s.time_of_last_state_change)
      t.hour alerts
    rcases Nat.le_one_iff_eq_zero_or_eq_one.mp hz.2 with hlen | hlen
    · have hfst : (processAlerts t.homeaway t.sampled (t.now - s.time_of_last_state_change)
          t.hour 0 alerts).1 = 0 := by rw [hz.1, hlen]
      have hs' : ({ s with alert_state :=
          (processAlerts t.homeaway t.sampled (t.now - s.time_of_last_state_change)
            t.hour 0 alerts).1 } : TrackerState) = s := by
        rw [hfst]
        cases s
        simp_all
      rw [hs'] at hstep
      have ihs := ih s h1 (fun t' ht' => h2 t' (List.mem_cons_of_mem t ht'))
      simp [runTicks, hstep, hlen]
      omega
    · have hfst : (processAlerts t.homeaway t.sampled (t.now - s.time_of_last_state_change)
          t.hour 0 alerts).1 = 1 := by rw [hz.1, hlen]
      have hdead := runTicks_dead alerts rest
        ({ s with alert_state :=
          (processAlerts t.homeaway t.sampled (t.now - s.time_of_last_state_change)
            t.hour 0 alerts).1 })
        (by rw [hfst]; exact one_ne_zero)
        (by intro t' ht'; exact h2 t' (List.mem_cons_of_mem t ht'))
      simp [runTicks, hstep, hdead, hlen]

/-- Helper: on a tick whose episode is armed (either the counter is zero or
the tick itself is a transition), the rule loop runs from counter `0` for
some elapsed time, the new door state is the sampled one, and the new
counter and fired list come from that run. -/
theorem tickStep_armed (alerts : List AlertRule) (s : TrackerState) (t : Tick)
    (harm : s.alert_state = 0 ∨ t.sampled ≠ s.door_state) :
    ∃ tis : Int,
      (tickStep alerts s t).1.door_state = t.sampled ∧
      (tickStep alerts s t).1.alert_state =
        (processAlerts t.homeaway t.sampled tis t.hour 0 alerts).1 ∧
      (tickStep alerts s t).2 =
        (processAlerts t.homeaway t.sampled tis t.hour 0 alerts).2 := by
  by_cases hd : t.sampled = s.door_state
  · have h0 : s.alert_state = 0 := by
      rcases harm with h | h
      · exact h
      · exact absurd hd h
    refine ⟨t.now - s.time_of_last_state_change, ?_⟩
    rw [tickStep_no_transition alerts s t hd, h0]
    exact ⟨hd.symm, rfl, rfl⟩
  · refine ⟨0, ?_⟩
    rw [tickStep_transition alerts s t (fun e => hd e.symm)]
    exact ⟨rfl, rfl, rfl⟩

/-- C1 counterexample: a rule with `start == end` (here 5..5), an armed
episode, a matching door state and a long-exceeded threshold does NOT fire
at an hour inside the supposed all-day window: in the code such a rule
matches neither window branch. -/
theorem start_eq_end_counterexample :
    sendAlertDecision "home" "open" 100 5 ⟨5, 5, 0, "open", []⟩ = false ∧
    (tickStep [⟨5, 5, 0, "open", []⟩] ⟨"open", 0, 0⟩ ⟨"open", 100, 5, "home"⟩).2 = [] := by
  decide

/-- C1 (amended): a rule with `startHour == endHour` satisfies the in-window
test at NO hour of the day — both window branches require strict
inequality between the bounds — so outside the away-mode override such a
rule never fires, at any hour, door state, or time in state. -/
theorem start_eq_end_never_fires (homeaway state : String) (tis hour : Int)
    (r : AlertRule) (h1 : r.start = r.endH) (h2 : ¬(homeaway = "away" ∧ state = "open")) :
    sendAlertDecision homeaway state tis hour r = false := by
  simp [sendAlertDecision, h1, h2]

/-- Witness for C1 (amended). -/
theorem start_eq_end_never_fires_witness :
    sendAlertDecision "home" "closed" 100 12 ⟨7, 7, 0, "closed", []⟩ = false :=
  start_eq_end_never_fires "home" "closed" 100 12 ⟨7, 7, 0, "closed", []⟩ rfl (by decide)

/-- C2 counterexample: two rules A (threshold 10) and B (threshold 15),
both matching all day.  On the first tick A fires (and `alert_state`
becomes 1); on a later tick in the same episode B's own condition holds
(`sendAlertDecision` is true for B) and B has never fired, yet nothing
fires: the fired flag is shared, not per rule. -/
theorem per_rule_arm_counterexample :
    (tickStep [⟨0, 23, 10, "open", []⟩, ⟨0, 23, 15, "open", []⟩]
        ⟨"open", 0, 0⟩ ⟨"open", 20, 12, "home"⟩).2 = [⟨0, 23, 10, "open", []⟩] ∧
    sendAlertDecision "home" "open" 40 12 ⟨0, 23, 15, "open", []⟩ = true ∧
    (tickStep [⟨0, 23, 10, "open", []⟩, ⟨0, 23, 15, "open", []⟩]
        (tickStep [⟨0, 23, 10, "open", []⟩, ⟨0, 23, 15, "open", []⟩]
          ⟨"open", 0, 0⟩ ⟨"open", 20, 12, "home"⟩).1
        ⟨"open", 40, 12, "home"⟩).2 = [] := by
  decide

/-- C2 (amended): the "already fired" state is a single counter shared by
ALL rules, not a per-rule flag: once any rule has fired in the current
episode (`alert_state ≠ 0`), every rule — including a different rule that
has not yet fired and whose own condition is met — is skipped on every
later tick until the next door transition. -/
theorem shared_arm_state_blocks_all_rules (alerts : List AlertRule)
    (s : TrackerState) (t : Tick)
    (h1 : s.alert_state ≠ 0) (h2 : t.sampled = s.door_state) :
    (tickStep alerts s t).2 = [] ∧
    (tickStep alerts s t).1.alert_state = s.alert_state := by
  rw [tickStep_dead alerts s t h1 h2]
  exact ⟨rfl, rfl⟩

/-- Witness for C2 (amended). -/
theorem shared_arm_state_blocks_all_rules_witness :
    (tickStep [⟨0, 23, 15, "open", []⟩] ⟨"open", 0, 1⟩ ⟨"open", 40, 12, "home"⟩).2 = [] :=
  (shared_arm_state_blocks_all_rules [⟨0, 23, 15, "open", []⟩]
    ⟨"open", 0, 1⟩ ⟨"open", 40, 12, "home"⟩ (by decide) rfl).1

/-- C3: on an armed tick with mode `away` and door `open` and at least one
configured rule, exactly one alert fires — whatever every rule's window,
the hour of day, or the elapsed time — the episode is then marked fired,
and no later tick of the same episode fires again. -/
theorem away_open_fires (alerts : List AlertRule) (s : TrackerState) (t : Tick)
    (hne : alerts ≠ []) (haway : t.homeaway = "away") (hopen : t.sampled = "open")
    (harm : s.alert_state = 0 ∨ t.sampled ≠ s.door_state) :
    ((tickStep alerts s t).2).length = 1 ∧
    (tickStep alerts s t).1.alert_state ≠ 0 ∧
    ∀ t2 : Tick, t2.sampled = t.sampled →
      (tickStep alerts (tickStep alerts s t).1 t2).2 = [] := by
  obtain ⟨r, rest, rfl⟩ : ∃ r rest, alerts = r :: rest := by
    cases alerts with
    | nil => exact absurd rfl hne
    | cons r rest => exact ⟨r, rest, rfl⟩
  obtain ⟨tis, hdoor, halert, hfired⟩ := tickStep_armed (r :: rest) s t harm
  have hdec : sendAlertDecision t.homeaway t.sampled tis t.hour r = true := by
    simp [sendAlertDecision, haway, hopen]
  have hpa : processAlerts t.homeaway t.sampled tis t.hour 0 (r :: rest) = (1, [r]) := by
    simp [processAlerts, hdec,
      processAlerts_ne_zero t.homeaway t.sampled tis t.hour 1 rest one_ne_zero]
  refine ⟨?_, ?_, ?_⟩
  · rw [hfired, hpa]
    rfl
  · rw [halert, hpa]
    exact one_ne_zero
  · intro t2 ht2
    rw [tickStep_dead (r :: rest) (tickStep (r :: rest) s t).1 t2
      (by rw [halert, hpa]; exact one_ne_zero)
      (by rw [ht2, hdoor])]

/-- Witness for C3: the rule's window (0..5), trigger state (`closed`) and
threshold (10000 s) are all violated at the tick, yet away+open fires. -/
theorem away_open_fires_witness :
    ((tickStep [⟨0, 5, 10000, "closed", []⟩] ⟨"open", 0, 0⟩ ⟨"open", 1, 12, "away"⟩).2).length
      = 1 :=
  (away_open_fires [⟨0, 5, 10000, "closed", []⟩] ⟨"open", 0, 0⟩ ⟨"open", 1, 12, "away"⟩
    (List.cons_ne_nil _ _) rfl rfl (Or.inl rfl)).1

/-- C5: outside the away-mode override, for a same-day rule
(`start < end`) the firing test succeeds exactly when the hour lies in
`[start, end]` (inclusive on both ends), the door state equals the rule's
trigger state and the time in state strictly exceeds the threshold; for a
midnight-wrapping rule (`start > end`) the window clause becomes
`hour ≥ start OR hour ≤ end`. -/
theorem window_test_iff (r : AlertRule) (homeaway state : String) (tis hour : Int)
    (h : ¬(homeaway = "away" ∧ state = "open")) :
    (r.start < r.endH →
      (sendAlertDecision homeaway state tis hour r = true ↔
        (r.start ≤ hour ∧ hour ≤ r.endH ∧ state = r.state ∧ tis > r.time))) ∧
    (r.endH < r.start →
      (sendAlertDecision homeaway state tis hour r = true ↔
        ((hour ≥ r.start ∨ hour ≤ r.endH) ∧ state = r.state ∧ tis > r.time))) := by
  constructor
  · intro hlt
    simp only [sendAlertDecision, if_neg h, if_pos hlt, decide_eq_true_eq]
    constructor
    · rintro ⟨a, b, c, d⟩
      exact ⟨a, b, d, c⟩
    · rintro ⟨a, b, c, d⟩
      exact ⟨a, b, d, c⟩
  · intro hlt
    have hnlt : ¬(r.start < r.endH) := by omega
    simp only [sendAlertDecision, if_neg h, if_neg hnlt, if_pos hlt, decide_eq_true_eq]
    constructor
    · rintro ⟨a, b, c⟩
      exact ⟨a, c, b⟩
    · rintro ⟨a, b, c⟩
      exact ⟨a, c, b⟩

/-- Witness for C5: the wrapping rule 22..6 matches hour 23. -/
theorem window_test_iff_witness :
    sendAlertDecision "home" "open" 20 23 ⟨22, 6, 10, "open", []⟩ = true :=
  ((window_test_iff ⟨22, 6, 10, "open", []⟩ "home" "open" 20 23 (by decide)).2
    (by decide)).mpr ⟨Or.inl (by decide), rfl, by decide⟩

/-- C7: (i) across any episode — a transition tick followed by any run of
ticks with no further transition — at most one alert fires in total, so no
rule ever fires twice in one episode; (ii) a tick without a transition
never resets a fired flag; (iii) the flag is reset (to unfired) exactly by
the transition handling of a sample that changes the door state. -/
theorem fires_at_most_once_per_episode :
    (∀ (alerts : List AlertRule) (s : TrackerState) (t0 : Tick) (ts : List Tick),
      t0.sampled ≠ s.door_state → (∀ t ∈ ts, t.sampled = t0.sampled) →
      ((runTicks alerts s (t0 :: ts)).2).length ≤ 1) ∧
    (∀ (alerts : List AlertRule) (s : TrackerState) (t : Tick),
      s.alert_state ≠ 0 → t.sampled = s.door_state →
      (tickStep alerts s t).1.alert_state = s.alert_state) ∧
    (∀ (s : TrackerState) (st : String) (now : Int),
      s.door_state ≠ st → (sample s st now).1.alert_state = 0) := by
  refine ⟨?_, ?_, ?_⟩
  · intro alerts s t0 ts h0 hts
    have hstep := tickStep_transition alerts s t0 (fun e => h0 e.symm)
    have hz := processAlerts_zero t0.homeaway t0.sampled 0 t0.hour alerts
    rcases Nat.le_one_iff_eq_zero_or_eq_one.mp hz.2 with hlen | hlen
    · have hfst : (processAlerts t0.homeaway t0.sampled 0 t0.hour 0 alerts).1 = 0 := by
        rw [hz.1, hlen]
      have hlive := runTicks_live alerts ts
        ({ door_state := t0.sampled, time_of_last_state_change := t0.now,
           alert_state := (processAlerts t0.homeaway t0.sampled 0 t0.hour 0 alerts).1 })
        hfst hts
      simp [runTicks, hstep, hlen]
      omega
    · have hfst : (processAlerts t0.homeaway t0.sampled 0 t0.hour 0 alerts).1 = 1 := by
        rw [hz.1, hlen]
      have hdead := runTicks_dead alerts ts
        ({ door_state := t0.sampled, time_of_last_state_change := t0.now,
           alert_state := (processAlerts t0.homeaway t0.sampled 0 t0.hour 0 alerts).1 })
        (by rw [hfst]; exact one_ne_zero) hts
      simp [runTicks, hstep, hdead, hlen]
  · intro alerts s t h1 h2
    rw [tickStep_dead alerts s t h1 h2]
  · intro s st now h
    rw [sample_transition s st now h]

/-- Witness for C7: an episode of a transition tick plus one more tick,
with a rule firing on the first tick. -/
theorem fires_at_most_once_per_episode_witness :
    ((runTicks [⟨0, 23, 10, "open", []⟩] ⟨"closed", 0, 0⟩
      (⟨"open", 5, 12, "away"⟩ :: [⟨"open", 40, 12, "away"⟩])).2).length ≤ 1 :=
  fires_at_most_once_per_episode.1 [⟨0, 23, 10, "open", []⟩] ⟨"closed", 0, 0⟩
    ⟨"open", 5, 12, "away"⟩ [⟨"open", 40, 12, "away"⟩] (by decide) (by decide)

/-- C8: after each sample the tracked state equals the sampled door state;
a sample that differs from the current episode's state reports
`timeInState = 0`, restarts the episode clock at `now`, and resets the
fired flag, while any other sample reports `now` minus the episode's start
time and leaves the tracker untouched; over any sample sequence the final
tracked state is the most recent sample. -/
theorem tracker_sample_spec :
    (∀ (s : TrackerState) (st : String) (now : Int),
      (sample s st now).1.door_state = st ∧
      (s.door_state ≠ st →
        (sample s st now).2 = 0 ∧
        (sample s st now).1.time_of_last_state_change = now ∧
        (sample s st now).1.alert_state = 0) ∧
      (s.door_state = st →
        (sample s st now).2 = now - s.time_of_last_state_change ∧
        (sample s st now).1 = s)) ∧
    (∀ (s : TrackerState) (pre : List (String × Int)) (p : String × Int),
      (runSamples s (pre ++ [p])).door_state = p.1) := by
  constructor
  · intro s st now
    refine ⟨sample_door s st now, ?_, ?_⟩
    · intro h
      rw [sample_transition s st now h]
      exact ⟨rfl, rfl, rfl⟩
    · intro h
      rw [sample_no_transition s st now h.symm]
      exact ⟨rfl, rfl⟩
  · intro s pre
    induction pre generalizing s with
    | nil =>
      intro p
      obtain ⟨st, now⟩ := p
      simp only [List.nil_append, runSamples]
      exact sample_door s st now
    | cons q rest ih =>
      intro p
      obtain ⟨qst, qnow⟩ := q
      simp only [List.cons_append, runSamples]
      exact ih (sample s qst qnow).1 p

/-- Witness for C8. -/
theorem tracker_sample_spec_witness :
    (sample ⟨"closed", 0, 3⟩ "open" 5).2 = 0 ∧
    (sample ⟨"closed", 2, 0⟩ "closed" 7).2 = 7 - 2 ∧
    (runSamples ⟨"closed", 0, 0⟩ ([("closed", 1), ("open", 5)] ++ [("open", 9)])).door_state
      = "open" :=
  ⟨((tracker_sample_spec.1 ⟨"closed", 0, 3⟩ "open" 5).2.1 (by decide)).1,
   ((tracker_sample_spec.1 ⟨"closed", 2, 0⟩ "closed" 7).2.2 rfl).1,
   tracker_sample_spec.2 ⟨"closed", 0, 0⟩ [("closed", 1), ("open", 5)] ("open", 9)⟩
